import Mathlib

/-!
Verification of the mempool admission-control and capacity-accounting core
(`crates/client/mempool/src/inner/limits.rs`).

Shallow embedding conventions:
* `usize` counters are `Nat`; arithmetic that can overflow is taken modulo
  `USIZE = 2^64` (the wrap-around semantics of a 64-bit release build).
* `SystemTime` instants are `Nat` seconds since the Unix epoch, the epoch
  being the earliest representable instant (timestamp `0`); `Duration` is
  a `Nat` number of seconds.  `SystemTime::checked_sub` is
  `systemTimeCheckedSub`, returning `none` when the subtraction would go
  below the epoch.
* The wall clock read `SystemTime::now()` becomes an explicit
  `current_time` argument.
* `Result<(), MempoolLimitReached>` becomes `Except MempoolLimitReached Unit`.
* `TransactionCheckedLimits::limits_for` reads only the transaction type
  and the arrival instant from the `MempoolTransaction`, so it is embedded
  as a function of those two values.
-/

set_option maxRecDepth 8000

/-- The number of `usize` values on a 64-bit target, `2 ^ 64`. -/
def USIZE : Nat := 18446744073709551616

/-- `MempoolLimits`: the immutable capacity configuration. -/
structure MempoolLimits where
  max_transactions : Nat
  max_declare_transactions : Nat
  max_age : Nat
deriving DecidableEq

/-- `MempoolLimits::for_testing`: caps at `usize::MAX`, age of 10000000 seconds. -/
def MempoolLimits.for_testing : MempoolLimits :=
  { max_age := 10000000, max_declare_transactions := USIZE - 1, max_transactions := USIZE - 1 }

/-- `MempoolLimiter`: configuration plus the two live counters. -/
structure MempoolLimiter where
  config : MempoolLimits
  current_transactions : Nat
  current_declare_transactions : Nat
deriving DecidableEq

/-- `MempoolLimitReached`: the three admission-rejection kinds. -/
inductive MempoolLimitReached where
  | MaxTransactions (max : Nat)
  | MaxDeclareTransactions (max : Nat)
  | Age (max : Nat)
deriving DecidableEq

/-- `blockifier`'s `TransactionType`: the four transaction categories. -/
inductive TransactionType where
  | Declare
  | DeployAccount
  | InvokeFunction
  | L1Handler
deriving DecidableEq

/-- `TransactionCheckedLimits`: which limits apply to a transaction, plus its
arrival instant. -/
structure TransactionCheckedLimits where
  check_tx_limit : Bool
  check_declare_limit : Bool
  check_age : Bool
  tx_arrived_at : Nat
deriving DecidableEq

/-- `TransactionCheckedLimits::limits_for`, as a function of the transaction
type and arrival instant (the two fields of `MempoolTransaction` it reads). -/
def TransactionCheckedLimits.limits_for (tx_type : TransactionType) (arrived_at : Nat) :
    TransactionCheckedLimits :=
  match tx_type with
  | .Declare =>
      { check_tx_limit := true, check_declare_limit := true, check_age := true,
        tx_arrived_at := arrived_at }
  | .DeployAccount =>
      { check_tx_limit := true, check_declare_limit := false, check_age := true,
        tx_arrived_at := arrived_at }
  | .InvokeFunction =>
      { check_tx_limit := true, check_declare_limit := false, check_age := true,
        tx_arrived_at := arrived_at }
  | .L1Handler =>
      { check_tx_limit := false, check_declare_limit := false, check_age := false,
        tx_arrived_at := arrived_at }

/-- `MempoolLimiter::new`: both counters start at zero. -/
def MempoolLimiter.new (limits : MempoolLimits) : MempoolLimiter :=
  { config := limits, current_transactions := 0, current_declare_transactions := 0 }

/-- `SystemTime::checked_sub` on epoch-based instants: `none` when the result
would precede the earliest representable instant. -/
def systemTimeCheckedSub (t d : Nat) : Option Nat :=
  if d ≤ t then some (t - d) else none

/-- `MempoolLimiter::tx_age_exceeded`; `current_time` is the value read from
`SystemTime::now()`, and `unwrap_or(UNIX_EPOCH)` is `Option.getD _ 0`. -/
def MempoolLimiter.tx_age_exceeded (self : MempoolLimiter) (current_time : Nat)
    (to_check : TransactionCheckedLimits) : Bool :=
  if to_check.check_age = true then
    if to_check.tx_arrived_at < (systemTimeCheckedSub current_time self.config.max_age).getD 0 then
      true
    else
      false
  else
    false

/-- `MempoolLimiter::check_insert_limits`: total cap, then declare cap, then
age, short-circuiting. -/
def MempoolLimiter.check_insert_limits (self : MempoolLimiter) (current_time : Nat)
    (to_check : TransactionCheckedLimits) : Except MempoolLimitReached Unit :=
  if to_check.check_tx_limit = true ∧ self.config.max_transactions ≤ self.current_transactions then
    Except.error (MempoolLimitReached.MaxTransactions self.config.max_transactions)
  else if to_check.check_declare_limit = true ∧
      self.config.max_declare_transactions ≤ self.current_declare_transactions then
    Except.error (MempoolLimitReached.MaxDeclareTransactions self.config.max_declare_transactions)
  else if self.tx_age_exceeded current_time to_check = true then
    Except.error (MempoolLimitReached.Age self.config.max_age)
  else
    Except.ok ()

/-- `MempoolLimiter::update_tx_limits`: unchecked `+= 1` on the total counter,
and on the declare counter when the declare flag is set. -/
def MempoolLimiter.update_tx_limits (self : MempoolLimiter)
    (limits : TransactionCheckedLimits) : MempoolLimiter :=
  { self with
    current_transactions := (self.current_transactions + 1) % USIZE,
    current_declare_transactions :=
      if limits.check_declare_limit = true then
        (self.current_declare_transactions + 1) % USIZE
      else
        self.current_declare_transactions }

/-- `MempoolLimiter::mark_removed`: unchecked `-= 1` on the total counter, and
on the declare counter when the declare flag is set (wrapping subtraction is
addition of `USIZE - 1` modulo `USIZE`). -/
def MempoolLimiter.mark_removed (self : MempoolLimiter)
    (to_update : TransactionCheckedLimits) : MempoolLimiter :=
  { self with
    current_transactions := (self.current_transactions + (USIZE - 1)) % USIZE,
    current_declare_transactions :=
      if to_update.check_declare_limit = true then
        (self.current_declare_transactions + (USIZE - 1)) % USIZE
      else
        self.current_declare_transactions }

/-- A call made against the limiter: `update_tx_limits` (admission) or
`mark_removed` (removal), with the stored classification. -/
inductive MempoolEvent where
  | insert (c : TransactionCheckedLimits)
  | remove (c : TransactionCheckedLimits)
deriving DecidableEq

/-- One limiter call applied to a state. -/
def applyEvent (s : MempoolLimiter) : MempoolEvent → MempoolLimiter
  | .insert c => s.update_tx_limits c
  | .remove c => s.mark_removed c

/-- Run a sequence of limiter calls from a starting state. -/
def execEvents (es : List MempoolEvent) (s : MempoolLimiter) : MempoolLimiter :=
  es.foldl applyEvent s

/-- The multiset of outstanding admitted classifications after a sequence of
calls, starting from the given pool. -/
def poolAfter (pool : Multiset TransactionCheckedLimits) :
    List MempoolEvent → Multiset TransactionCheckedLimits
  | [] => pool
  | .insert c :: es => poolAfter (c ::ₘ pool) es
  | .remove c :: es => poolAfter (pool.erase c) es

/-- The one-to-one caller contract: every removal uses the stored
classification of a prior admission that has not been removed yet. -/
def validFromB (pool : Multiset TransactionCheckedLimits) : List MempoolEvent → Bool
  | [] => true
  | .insert c :: es => validFromB (c ::ₘ pool) es
  | .remove c :: es => decide (c ∈ pool) && validFromB (pool.erase c) es

/-- Number of `insert` events. -/
def countAdmits : List MempoolEvent → Nat
  | [] => 0
  | .insert _ :: es => countAdmits es + 1
  | .remove _ :: es => countAdmits es

/-- Number of `remove` events. -/
def countRemoves : List MempoolEvent → Nat
  | [] => 0
  | .insert _ :: es => countRemoves es
  | .remove _ :: es => countRemoves es + 1

/-- Number of `insert` events whose classification counts toward the declare cap. -/
def countDeclareAdmits : List MempoolEvent → Nat
  | [] => 0
  | .insert c :: es => if c.check_declare_limit = true then countDeclareAdmits es + 1 else countDeclareAdmits es
  | .remove _ :: es => countDeclareAdmits es

/-- Number of `remove` events whose classification counts toward the declare cap. -/
def countDeclareRemoves : List MempoolEvent → Nat
  | [] => 0
  | .insert _ :: es => countDeclareRemoves es
  | .remove c :: es => if c.check_declare_limit = true then countDeclareRemoves es + 1 else countDeclareRemoves es

lemma wrap_inc {t : Nat} (h : t + 1 < USIZE) : (t + 1) % USIZE = t + 1 :=
  Nat.mod_eq_of_lt h

lemma wrap_dec {t : Nat} (h1 : 1 ≤ t) (h2 : t < USIZE) : (t + (USIZE - 1)) % USIZE = t - 1 := by
  unfold USIZE at *
  omega

lemma systemTimeCheckedSub_getD (t d : Nat) : (systemTimeCheckedSub t d).getD 0 = t - d := by
  unfold systemTimeCheckedSub
  split
  · rfl
  · simp only [Option.getD_none]
    omega

lemma validFromB_append (es₁ es₂ : List MempoolEvent) :
    ∀ pool, validFromB pool (es₁ ++ es₂) = true → validFromB pool es₁ = true := by
  induction es₁ with
  | nil => intro pool _; rfl
  | cons e es ih =>
      intro pool h
      cases e with
      | insert c => exact ih (c ::ₘ pool) h
      | remove c =>
          simp only [List.cons_append, validFromB, Bool.and_eq_true] at h ⊢
          exact ⟨h.1, ih (pool.erase c) h.2⟩

lemma applyEvent_insert (s : MempoolLimiter) (c : TransactionCheckedLimits) :
    applyEvent s (MempoolEvent.insert c) = s.update_tx_limits c := rfl

lemma applyEvent_remove (s : MempoolLimiter) (c : TransactionCheckedLimits) :
    applyEvent s (MempoolEvent.remove c) = s.mark_removed c := rfl

lemma execEvents_nil (s : MempoolLimiter) : execEvents [] s = s := rfl

lemma execEvents_cons_insert (s : MempoolLimiter) (c : TransactionCheckedLimits)
    (es : List MempoolEvent) :
    execEvents (MempoolEvent.insert c :: es) s = execEvents es (s.update_tx_limits c) := by
  unfold execEvents
  rw [List.foldl_cons, applyEvent_insert]

lemma execEvents_cons_remove (s : MempoolLimiter) (c : TransactionCheckedLimits)
    (es : List MempoolEvent) :
    execEvents (MempoolEvent.remove c :: es) s = execEvents es (s.mark_removed c) := by
  unfold execEvents
  rw [List.foldl_cons, applyEvent_remove]

lemma poolAfter_nil (pool : Multiset TransactionCheckedLimits) : poolAfter pool [] = pool := rfl

lemma poolAfter_cons_insert (pool : Multiset TransactionCheckedLimits)
    (c : TransactionCheckedLimits) (es : List MempoolEvent) :
    poolAfter pool (MempoolEvent.insert c :: es) = poolAfter (c ::ₘ pool) es := rfl

lemma poolAfter_cons_remove (pool : Multiset TransactionCheckedLimits)
    (c : TransactionCheckedLimits) (es : List MempoolEvent) :
    poolAfter pool (MempoolEvent.remove c :: es) = poolAfter (pool.erase c) es := rfl

/-- An execution respecting the caller contract keeps each counter equal to
the (declare-filtered) cardinality of the outstanding pool. -/
lemma execEvents_counters (es : List MempoolEvent) :
    ∀ (pool : Multiset TransactionCheckedLimits) (s : MempoolLimiter),
    validFromB pool es = true →
    Multiset.card pool + es.length < USIZE →
    s.current_transactions = Multiset.card pool →
    s.current_declare_transactions =
      Multiset.card (Multiset.filter (fun c => c.check_declare_limit = true) pool) →
    (execEvents es s).current_transactions = Multiset.card (poolAfter pool es)
    ∧ (execEvents es s).current_declare_transactions =
        Multiset.card (Multiset.filter (fun c => c.check_declare_limit = true) (poolAfter pool es)) := by
  induction es with
  | nil =>
      intro pool s _ _ h3 h4
      exact ⟨h3, h4⟩
  | cons e es ih =>
      intro pool s hv hlen h3 h4
      have hfilter_le :
          Multiset.card (Multiset.filter (fun c => c.check_declare_limit = true) pool)
            ≤ Multiset.card pool :=
        Multiset.card_le_card (Multiset.filter_le _ pool)
      have hlen2 : Multiset.card pool + es.length + 1 < USIZE := by
        simp only [List.length_cons] at hlen
        omega
      cases e with
      | insert c =>
          have hv' : validFromB (c ::ₘ pool) es = true := hv
          have hlen' : Multiset.card (c ::ₘ pool) + es.length < USIZE := by
            rw [Multiset.card_cons]
            omega
          have h3' : (s.update_tx_limits c).current_transactions = Multiset.card (c ::ₘ pool) := by
            show (s.current_transactions + 1) % USIZE = Multiset.card (c ::ₘ pool)
            rw [Multiset.card_cons, h3]
            exact wrap_inc (by omega)
          have h4' : (s.update_tx_limits c).current_declare_transactions =
              Multiset.card (Multiset.filter (fun x => x.check_declare_limit = true) (c ::ₘ pool)) := by
            show (if c.check_declare_limit = true then (s.current_declare_transactions + 1) % USIZE
                else s.current_declare_transactions)
              = Multiset.card (Multiset.filter (fun x => x.check_declare_limit = true) (c ::ₘ pool))
            by_cases hc : c.check_declare_limit = true
            · rw [if_pos hc,
                Multiset.filter_cons_of_pos (p := fun x => x.check_declare_limit = true) pool hc,
                Multiset.card_cons, h4]
              exact wrap_inc (by omega)
            · rw [if_neg hc,
                Multiset.filter_cons_of_neg (p := fun x => x.check_declare_limit = true) pool hc, h4]
          rw [execEvents_cons_insert, poolAfter_cons_insert]
          exact ih (c ::ₘ pool) (s.update_tx_limits c) hv' hlen' h3' h4'
      | remove c =>
          have hv0 : (decide (c ∈ pool) && validFromB (pool.erase c) es) = true := hv
          rw [Bool.and_eq_true, decide_eq_true_eq] at hv0
          obtain ⟨hmem, hv'⟩ := hv0
          have hpool : c ::ₘ pool.erase c = pool := Multiset.cons_erase hmem
          have hcards : Multiset.card pool = Multiset.card (pool.erase c) + 1 := by
            conv_lhs => rw [← hpool]
            rw [Multiset.card_cons]
          have hlen' : Multiset.card (pool.erase c) + es.length < USIZE := by omega
          have h3' : (s.mark_removed c).current_transactions = Multiset.card (pool.erase c) := by
            show (s.current_transactions + (USIZE - 1)) % USIZE = Multiset.card (pool.erase c)
            rw [h3, wrap_dec (by omega) (by omega)]
            omega
          have h4' : (s.mark_removed c).current_declare_transactions =
              Multiset.card (Multiset.filter (fun x => x.check_declare_limit = true) (pool.erase c)) := by
            show (if c.check_declare_limit = true
                  then (s.current_declare_transactions + (USIZE - 1)) % USIZE
                  else s.current_declare_transactions)
              = Multiset.card (Multiset.filter (fun x => x.check_declare_limit = true) (pool.erase c))
            by_cases hc : c.check_declare_limit = true
            · have hfe : Multiset.filter (fun x => x.check_declare_limit = true) pool
                  = c ::ₘ Multiset.filter (fun x => x.check_declare_limit = true) (pool.erase c) := by
                conv_lhs => rw [← hpool]
                exact Multiset.filter_cons_of_pos (p := fun x => x.check_declare_limit = true)
                  (pool.erase c) hc
              have hfc : Multiset.card (Multiset.filter (fun x => x.check_declare_limit = true) pool)
                  = Multiset.card
                      (Multiset.filter (fun x => x.check_declare_limit = true) (pool.erase c)) + 1 := by
                rw [hfe, Multiset.card_cons]
              rw [if_pos hc, h4, wrap_dec (by omega) (by omega)]
              omega
            · have hfe : Multiset.filter (fun x => x.check_declare_limit = true) pool
                  = Multiset.filter (fun x => x.check_declare_limit = true) (pool.erase c) := by
                conv_lhs => rw [← hpool]
                exact Multiset.filter_cons_of_neg (p := fun x => x.check_declare_limit = true)
                  (pool.erase c) hc
              rw [if_neg hc, h4, hfe]
          rw [execEvents_cons_remove, poolAfter_cons_remove]
          exact ih (pool.erase c) (s.mark_removed c) hv' hlen' h3' h4'

/-- On a contract-respecting execution, the outstanding pool's cardinality is
admissions minus removals (stated without truncated subtraction). -/
lemma card_poolAfter (es : List MempoolEvent) :
    ∀ pool, validFromB pool es = true →
    Multiset.card (poolAfter pool es) + countRemoves es
        = Multiset.card pool + countAdmits es
    ∧ Multiset.card (Multiset.filter (fun c => c.check_declare_limit = true) (poolAfter pool es))
          + countDeclareRemoves es
        = Multiset.card (Multiset.filter (fun c => c.check_declare_limit = true) pool)
          + countDeclareAdmits es := by
  induction es with
  | nil =>
      intro pool _
      rw [poolAfter_nil]
      exact ⟨rfl, rfl⟩
  | cons e es ih =>
      intro pool hv
      cases e with
      | insert c =>
          have hv' : validFromB (c ::ₘ pool) es = true := hv
          obtain ⟨ih1, ih2⟩ := ih (c ::ₘ pool) hv'
          rw [Multiset.card_cons] at ih1
          rw [poolAfter_cons_insert]
          constructor
          · show Multiset.card (poolAfter (c ::ₘ pool) es) + countRemoves es
                = Multiset.card pool + (countAdmits es + 1)
            omega
          · show Multiset.card (Multiset.filter (fun x => x.check_declare_limit = true)
                  (poolAfter (c ::ₘ pool) es)) + countDeclareRemoves es
                = Multiset.card (Multiset.filter (fun x => x.check_declare_limit = true) pool)
                  + (if c.check_declare_limit = true
                      then countDeclareAdmits es + 1 else countDeclareAdmits es)
            by_cases hc : c.check_declare_limit = true
            · rw [Multiset.filter_cons_of_pos (p := fun x => x.check_declare_limit = true) pool hc,
                Multiset.card_cons] at ih2
              rw [if_pos hc]
              omega
            · rw [Multiset.filter_cons_of_neg (p := fun x => x.check_declare_limit = true) pool hc]
                at ih2
              rw [if_neg hc]
              omega
      | remove c =>
          have hv0 : (decide (c ∈ pool) && validFromB (pool.erase c) es) = true := hv
          rw [Bool.and_eq_true, decide_eq_true_eq] at hv0
          obtain ⟨hmem, hv'⟩ := hv0
          have hpool : c ::ₘ pool.erase c = pool := Multiset.cons_erase hmem
          have hcards : Multiset.card pool = Multiset.card (pool.erase c) + 1 := by
            conv_lhs => rw [← hpool]
            rw [Multiset.card_cons]
          obtain ⟨ih1, ih2⟩ := ih (pool.erase c) hv'
          rw [poolAfter_cons_remove]
          constructor
          · show Multiset.card (poolAfter (pool.erase c) es) + (countRemoves es + 1)
                = Multiset.card pool + countAdmits es
            omega
          · show Multiset.card (Multiset.filter (fun x => x.check_declare_limit = true)
                  (poolAfter (pool.erase c) es))
                  + (if c.check_declare_limit = true
                      then countDeclareRemoves es + 1 else countDeclareRemoves es)
                = Multiset.card (Multiset.filter (fun x => x.check_declare_limit = true) pool)
                  + countDeclareAdmits es
            by_cases hc : c.check_declare_limit = true
            · have hfe : Multiset.filter (fun x => x.check_declare_limit = true) pool
                  = c ::ₘ Multiset.filter (fun x => x.check_declare_limit = true) (pool.erase c) := by
                conv_lhs => rw [← hpool]
                exact Multiset.filter_cons_of_pos (p := fun x => x.check_declare_limit = true)
                  (pool.erase c) hc
              rw [if_pos hc, hfe, Multiset.card_cons]
              omega
            · have hfe : Multiset.filter (fun x => x.check_declare_limit = true) pool
                  = Multiset.filter (fun x => x.check_declare_limit = true) (pool.erase c) := by
                conv_lhs => rw [← hpool]
                exact Multiset.filter_cons_of_neg (p := fun x => x.check_declare_limit = true)
                  (pool.erase c) hc
              rw [if_neg hc, hfe]
              omega

lemma update_tx_limits_config (s : MempoolLimiter) (c : TransactionCheckedLimits) :
    (s.update_tx_limits c).config = s.config := rfl

lemma update_tx_limits_curr (s : MempoolLimiter) (c : TransactionCheckedLimits) :
    (s.update_tx_limits c).current_transactions = (s.current_transactions + 1) % USIZE := rfl

lemma update_tx_limits_decl (s : MempoolLimiter) (c : TransactionCheckedLimits) :
    (s.update_tx_limits c).current_declare_transactions
      = if c.check_declare_limit = true then (s.current_declare_transactions + 1) % USIZE
        else s.current_declare_transactions := rfl

lemma mark_removed_config (s : MempoolLimiter) (c : TransactionCheckedLimits) :
    (s.mark_removed c).config = s.config := by
  cases s
  rfl

lemma mark_removed_curr (s : MempoolLimiter) (c : TransactionCheckedLimits) :
    (s.mark_removed c).current_transactions
      = (s.current_transactions + (USIZE - 1)) % USIZE := by
  cases s
  rfl

lemma mark_removed_decl (s : MempoolLimiter) (c : TransactionCheckedLimits) :
    (s.mark_removed c).current_declare_transactions
      = if c.check_declare_limit = true
          then (s.current_declare_transactions + (USIZE - 1)) % USIZE
        else s.current_declare_transactions := by
  cases s
  rfl

lemma wrap_round_trip {t : Nat} (h : t < USIZE) :
    ((t + 1) % USIZE + (USIZE - 1)) % USIZE = t := by
  unfold USIZE at *
  omega

lemma limits_for_arrived (t : TransactionType) (a : Nat) :
    (TransactionCheckedLimits.limits_for t a).tx_arrived_at = a := by
  cases t <;> rfl

lemma tx_age_exceeded_true_imp_check_age (s : MempoolLimiter) (now : Nat)
    (c : TransactionCheckedLimits) (h : s.tx_age_exceeded now c = true) :
    c.check_age = true := by
  unfold MempoolLimiter.tx_age_exceeded at h
  by_cases hc : c.check_age = true
  · exact hc
  · rw [if_neg hc] at h
    exact absurd h Bool.false_ne_true

lemma tx_age_exceeded_iff (s : MempoolLimiter) (now : Nat) (c : TransactionCheckedLimits)
    (hc : c.check_age = true) :
    s.tx_age_exceeded now c = true ↔ c.tx_arrived_at < now - s.config.max_age := by
  unfold MempoolLimiter.tx_age_exceeded
  rw [if_pos hc, systemTimeCheckedSub_getD]
  by_cases h : c.tx_arrived_at < now - s.config.max_age
  · rw [if_pos h]
    simp [h]
  · rw [if_neg h]
    simp [h]

lemma tx_age_exceeded_eq_false_of_flag (s : MempoolLimiter) (now : Nat)
    (c : TransactionCheckedLimits) (h : c.check_age = false) :
    s.tx_age_exceeded now c = false := by
  unfold MempoolLimiter.tx_age_exceeded
  rw [if_neg (by simp [h])]

lemma tx_age_exceeded_eq_false_of_young (s : MempoolLimiter) (now : Nat)
    (c : TransactionCheckedLimits) (h : ¬(c.tx_arrived_at < now - s.config.max_age)) :
    s.tx_age_exceeded now c = false := by
  unfold MempoolLimiter.tx_age_exceeded
  by_cases hc : c.check_age = true
  · rw [if_pos hc, systemTimeCheckedSub_getD, if_neg h]
  · rw [if_neg hc]

lemma check_err_total (s : MempoolLimiter) (now : Nat) (c : TransactionCheckedLimits)
    (h1 : c.check_tx_limit = true)
    (h2 : s.config.max_transactions ≤ s.current_transactions) :
    s.check_insert_limits now c
      = Except.error (MempoolLimitReached.MaxTransactions s.config.max_transactions) := by
  unfold MempoolLimiter.check_insert_limits
  rw [if_pos ⟨h1, h2⟩]

lemma check_err_declare (s : MempoolLimiter) (now : Nat) (c : TransactionCheckedLimits)
    (h0 : ¬(c.check_tx_limit = true ∧ s.config.max_transactions ≤ s.current_transactions))
    (h1 : c.check_declare_limit = true)
    (h2 : s.config.max_declare_transactions ≤ s.current_declare_transactions) :
    s.check_insert_limits now c
      = Except.error (MempoolLimitReached.MaxDeclareTransactions
          s.config.max_declare_transactions) := by
  unfold MempoolLimiter.check_insert_limits
  rw [if_neg h0, if_pos ⟨h1, h2⟩]

lemma check_err_age (s : MempoolLimiter) (now : Nat) (c : TransactionCheckedLimits)
    (h0 : ¬(c.check_tx_limit = true ∧ s.config.max_transactions ≤ s.current_transactions))
    (h1 : ¬(c.check_declare_limit = true ∧
        s.config.max_declare_transactions ≤ s.current_declare_transactions))
    (h2 : s.tx_age_exceeded now c = true) :
    s.check_insert_limits now c = Except.error (MempoolLimitReached.Age s.config.max_age) := by
  unfold MempoolLimiter.check_insert_limits
  rw [if_neg h0, if_neg h1, if_pos h2]

lemma check_insert_limits_ok (s : MempoolLimiter) (now : Nat) (c : TransactionCheckedLimits)
    (h0 : ¬(c.check_tx_limit = true ∧ s.config.max_transactions ≤ s.current_transactions))
    (h1 : ¬(c.check_declare_limit = true ∧
        s.config.max_declare_transactions ≤ s.current_declare_transactions))
    (h2 : s.tx_age_exceeded now c = false) :
    s.check_insert_limits now c = Except.ok () := by
  unfold MempoolLimiter.check_insert_limits
  rw [if_neg h0, if_neg h1, if_neg (by simp [h2])]

/-- Claim C1: `check_insert_limits` evaluates its checks in the fixed order
total-cap, then declare-cap, then age, short-circuiting on the first
violation; in particular, in the section-8 scenario (max_transactions = 2,
max_declare_transactions = 1, total = 2, declare = 1) a Declare check fails
with `MaxTransactions {max: 2}`, not `MaxDeclareTransactions`. -/
theorem check_insert_limits_fixed_order (s : MempoolLimiter) (now : Nat)
    (c : TransactionCheckedLimits) :
    (c.check_tx_limit = true → s.config.max_transactions ≤ s.current_transactions →
      s.check_insert_limits now c
        = Except.error (MempoolLimitReached.MaxTransactions s.config.max_transactions))
    ∧ (¬(c.check_tx_limit = true ∧ s.config.max_transactions ≤ s.current_transactions) →
        c.check_declare_limit = true →
        s.config.max_declare_transactions ≤ s.current_declare_transactions →
        s.check_insert_limits now c
          = Except.error (MempoolLimitReached.MaxDeclareTransactions
              s.config.max_declare_transactions))
    ∧ (¬(c.check_tx_limit = true ∧ s.config.max_transactions ≤ s.current_transactions) →
        ¬(c.check_declare_limit = true ∧
            s.config.max_declare_transactions ≤ s.current_declare_transactions) →
        s.tx_age_exceeded now c = true →
        s.check_insert_limits now c = Except.error (MempoolLimitReached.Age s.config.max_age))
    ∧ (¬(c.check_tx_limit = true ∧ s.config.max_transactions ≤ s.current_transactions) →
        ¬(c.check_declare_limit = true ∧
            s.config.max_declare_transactions ≤ s.current_declare_transactions) →
        s.tx_age_exceeded now c = false →
        s.check_insert_limits now c = Except.ok ())
    ∧ (∀ (age clock a : Nat),
        (MempoolLimiter.mk (MempoolLimits.mk 2 1 age) 2 1).check_insert_limits clock
            (TransactionCheckedLimits.limits_for .Declare a)
          = Except.error (MempoolLimitReached.MaxTransactions 2)) := by
  refine ⟨fun h1 h2 => check_err_total s now c h1 h2,
    fun h0 h1 h2 => check_err_declare s now c h0 h1 h2,
    fun h0 h1 h2 => check_err_age s now c h0 h1 h2,
    fun h0 h1 h2 => check_insert_limits_ok s now c h0 h1 h2,
    fun age clock a => ?_⟩
  exact check_err_total _ clock _ rfl (Nat.le_refl 2)

/-- Witness for C1: a concrete limiter at the total cap rejects a Declare
check with `MaxTransactions`. -/
theorem check_insert_limits_fixed_order_witness :
    (MempoolLimiter.mk (MempoolLimits.mk 2 1 1000) 2 1).check_insert_limits 50
        (TransactionCheckedLimits.limits_for .Declare 0)
      = Except.error (MempoolLimitReached.MaxTransactions 2) :=
  (check_insert_limits_fixed_order (MempoolLimiter.mk (MempoolLimits.mk 2 1 1000) 2 1) 50
    (TransactionCheckedLimits.limits_for .Declare 0)).1 rfl (Nat.le_refl 2)

/-- Claim C2: `check_insert_limits` never produces an error kind for a
classification exempt from the corresponding check, and the L1Handler
classification (all three flags false) is accepted for every limiter state,
configuration and arrival timestamp. -/
theorem check_insert_limits_exempt (s : MempoolLimiter) (now : Nat)
    (c : TransactionCheckedLimits) :
    (∀ m, s.check_insert_limits now c = Except.error (MempoolLimitReached.MaxTransactions m) →
        c.check_tx_limit = true)
    ∧ (∀ m, s.check_insert_limits now c
          = Except.error (MempoolLimitReached.MaxDeclareTransactions m) →
        c.check_declare_limit = true)
    ∧ (∀ m, s.check_insert_limits now c = Except.error (MempoolLimitReached.Age m) →
        c.check_age = true)
    ∧ (∀ a, s.check_insert_limits now (TransactionCheckedLimits.limits_for .L1Handler a)
        = Except.ok ()) := by
  refine ⟨?_, ?_, ?_, ?_⟩
  · intro m heq
    unfold MempoolLimiter.check_insert_limits at heq
    split_ifs at heq with h1 h2 h3 <;>
      first
        | exact h1.1
        | simp at heq
  · intro m heq
    unfold MempoolLimiter.check_insert_limits at heq
    split_ifs at heq with h1 h2 h3 <;>
      first
        | exact h2.1
        | simp at heq
  · intro m heq
    unfold MempoolLimiter.check_insert_limits at heq
    split_ifs at heq with h1 h2 h3 <;>
      first
        | exact tx_age_exceeded_true_imp_check_age s now c h3
        | simp at heq
  · intro a
    apply check_insert_limits_ok
    · rintro ⟨hf, -⟩
      exact Bool.false_ne_true hf
    · rintro ⟨hf, -⟩
      exact Bool.false_ne_true hf
    · exact tx_age_exceeded_eq_false_of_flag _ _ _ rfl

/-- Witness for C2: a limiter whose caps are all zero still accepts an
L1Handler classification, and a concrete `MaxTransactions` rejection implies
the total-cap flag. -/
theorem check_insert_limits_exempt_witness :
    (TransactionCheckedLimits.limits_for .Declare 7).check_tx_limit = true
    ∧ (MempoolLimiter.mk (MempoolLimits.mk 0 0 0) 0 0).check_insert_limits 0
        (TransactionCheckedLimits.limits_for .L1Handler 123) = Except.ok () :=
  ⟨(check_insert_limits_exempt (MempoolLimiter.mk (MempoolLimits.mk 0 0 0) 0 0) 0
      (TransactionCheckedLimits.limits_for .Declare 7)).1 0 rfl,
   (check_insert_limits_exempt (MempoolLimiter.mk (MempoolLimits.mk 0 0 0) 0 0) 0
      (TransactionCheckedLimits.limits_for .Declare 7)).2.2.2 123⟩

/-- Claim C3: `limits_for` is a deterministic, exhaustive map over the four
transaction categories producing exactly the flags of the section-4.2 table,
and in every case the stored arrival timestamp equals the transaction's
arrival timestamp. -/
theorem limits_for_classification_table (a : Nat) :
    TransactionCheckedLimits.limits_for .Declare a
        = TransactionCheckedLimits.mk true true true a
    ∧ TransactionCheckedLimits.limits_for .DeployAccount a
        = TransactionCheckedLimits.mk true false true a
    ∧ TransactionCheckedLimits.limits_for .InvokeFunction a
        = TransactionCheckedLimits.mk true false true a
    ∧ TransactionCheckedLimits.limits_for .L1Handler a
        = TransactionCheckedLimits.mk false false false a
    ∧ ∀ t : TransactionType, (TransactionCheckedLimits.limits_for t a).tx_arrived_at = a := by
  refine ⟨rfl, rfl, rfl, rfl, ?_⟩
  intro t
  cases t <;> rfl

/-- Claim C4: `update_tx_limits` increments `current_transactions` by exactly
one unconditionally and `current_declare_transactions` by exactly one iff the
declare flag is set; `mark_removed` decrements them symmetrically; neither
operation changes the configuration.  The counter deltas are stated under the
no-overflow bounds of a 64-bit counter. -/
theorem update_and_mark_counter_deltas (s : MempoolLimiter) (c : TransactionCheckedLimits) :
    ((s.update_tx_limits c).config = s.config)
    ∧ (s.current_transactions + 1 < USIZE →
        (s.update_tx_limits c).current_transactions = s.current_transactions + 1)
    ∧ (c.check_declare_limit = true → s.current_declare_transactions + 1 < USIZE →
        (s.update_tx_limits c).current_declare_transactions
          = s.current_declare_transactions + 1)
    ∧ (c.check_declare_limit = false →
        (s.update_tx_limits c).current_declare_transactions = s.current_declare_transactions)
    ∧ ((s.mark_removed c).config = s.config)
    ∧ (1 ≤ s.current_transactions → s.current_transactions < USIZE →
        (s.mark_removed c).current_transactions = s.current_transactions - 1)
    ∧ (c.check_declare_limit = true → 1 ≤ s.current_declare_transactions →
        s.current_declare_transactions < USIZE →
        (s.mark_removed c).current_declare_transactions
          = s.current_declare_transactions - 1)
    ∧ (c.check_declare_limit = false →
        (s.mark_removed c).current_declare_transactions
          = s.current_declare_transactions) := by
  refine ⟨update_tx_limits_config s c, ?_, ?_, ?_, mark_removed_config s c, ?_, ?_, ?_⟩
  · intro h
    rw [update_tx_limits_curr]
    exact wrap_inc h
  · intro hc h
    rw [update_tx_limits_decl, if_pos hc]
    exact wrap_inc h
  · intro hc
    rw [update_tx_limits_decl, if_neg (by simp [hc])]
  · intro h1 h2
    rw [mark_removed_curr]
    exact wrap_dec h1 h2
  · intro hc h1 h2
    rw [mark_removed_decl, if_pos hc]
    exact wrap_dec h1 h2
  · intro hc
    rw [mark_removed_decl, if_neg (by simp [hc])]

/-- Witness for C4: concrete deltas on a limiter holding 3 transactions of
which 2 are declares, for a declare-flagged classification. -/
theorem update_and_mark_counter_deltas_witness :
    ((MempoolLimiter.mk (MempoolLimits.mk 10 10 10) 3 2).update_tx_limits
        (TransactionCheckedLimits.mk true true true 0)).current_transactions = 4
    ∧ ((MempoolLimiter.mk (MempoolLimits.mk 10 10 10) 3 2).mark_removed
        (TransactionCheckedLimits.mk true true true 0)).current_declare_transactions = 1 :=
  ⟨(update_and_mark_counter_deltas (MempoolLimiter.mk (MempoolLimits.mk 10 10 10) 3 2)
      (TransactionCheckedLimits.mk true true true 0)).2.1 (by norm_num [USIZE]),
   (update_and_mark_counter_deltas (MempoolLimiter.mk (MempoolLimits.mk 10 10 10) 3 2)
      (TransactionCheckedLimits.mk true true true 0)).2.2.2.2.2.2.1 rfl (by norm_num)
      (by norm_num [USIZE])⟩

/-- Claim C5: `tx_age_exceeded` is false whenever the age flag is clear; with
the flag set it is true iff the arrival instant precedes the cutoff
`now - max_age` (saturating at the epoch), so an arrival equal to `now`
passes and an arrival `max_age + 1` time units before `now` fails. -/
theorem tx_age_exceeded_spec (s : MempoolLimiter) (now : Nat)
    (c : TransactionCheckedLimits) :
    (c.check_age = false → s.tx_age_exceeded now c = false)
    ∧ (c.check_age = true →
        (s.tx_age_exceeded now c = true ↔ c.tx_arrived_at < now - s.config.max_age))
    ∧ (c.tx_arrived_at = now → s.tx_age_exceeded now c = false)
    ∧ (c.check_age = true → c.tx_arrived_at + s.config.max_age + 1 = now →
        s.tx_age_exceeded now c = true) := by
  refine ⟨fun h => tx_age_exceeded_eq_false_of_flag s now c h,
    fun hc => tx_age_exceeded_iff s now c hc, ?_, ?_⟩
  · intro h
    exact tx_age_exceeded_eq_false_of_young s now c (by omega)
  · intro hc h
    rw [tx_age_exceeded_iff s now c hc]
    omega

/-- Witness for C5: with `max_age = 10`, an age-checked arrival at instant 0
is rejected at clock reading 11. -/
theorem tx_age_exceeded_spec_witness :
    (MempoolLimiter.mk (MempoolLimits.mk 5 5 10) 0 0).tx_age_exceeded 11
        (TransactionCheckedLimits.mk true true true 0) = true :=
  (tx_age_exceeded_spec (MempoolLimiter.mk (MempoolLimits.mk 5 5 10) 0 0) 11
    (TransactionCheckedLimits.mk true true true 0)).2.2.2 rfl (by norm_num)

/-- Counterexample for C6: `mark_removed` on a freshly constructed limiter
(both counters zero) silently wraps `current_transactions` to `usize::MAX`
instead of surfacing an invariant-violation error; no error value distinct
from the three rejection kinds exists in the removal path. -/
theorem mark_removed_wraps_counterexample :
    ((MempoolLimiter.new MempoolLimits.for_testing).mark_removed
        (TransactionCheckedLimits.limits_for .InvokeFunction 0)).current_transactions
      = USIZE - 1 := by
  rw [mark_removed_curr]
  norm_num [MempoolLimiter.new, USIZE]

/-- Amended C6: `mark_removed` performs an unchecked decrement; invoked with a
counter at zero (more removals than admissions) the subtraction underflows
and, under 64-bit wrap-around semantics, the counter silently wraps to
`usize::MAX`; no internal invariant-violation error is surfaced and the
wrapped state is indistinguishable from a huge pool. -/
theorem mark_removed_underflow_wraps (s : MempoolLimiter) (c : TransactionCheckedLimits)
    (h : s.current_transactions = 0) :
    (s.mark_removed c).current_transactions = USIZE - 1 := by
  rw [mark_removed_curr, h]
  norm_num [USIZE]

/-- Witness for the amended C6 theorem at a concrete empty limiter. -/
theorem mark_removed_underflow_wraps_witness :
    ((MempoolLimiter.mk (MempoolLimits.mk 3 3 3) 0 7).mark_removed
        (TransactionCheckedLimits.limits_for .Declare 5)).current_transactions = USIZE - 1 :=
  mark_removed_underflow_wraps (MempoolLimiter.mk (MempoolLimits.mk 3 3 3) 0 7)
    (TransactionCheckedLimits.limits_for .Declare 5) rfl

/-- Claim C7: along every call sequence from a fresh limiter that respects the
one-to-one admission/removal contract, `current_transactions` equals
admissions minus removals (hence non-negative), `current_declare_transactions`
equals declare-flagged admissions minus declare-flagged removals, and the
declare counter never exceeds the total counter. -/
theorem limiter_counters_track_valid_traces (es₁ es₂ : List MempoolEvent)
    (cfg : MempoolLimits)
    (hv : validFromB 0 (es₁ ++ es₂) = true)
    (hlen : (es₁ ++ es₂).length < USIZE) :
    (execEvents es₁ (MempoolLimiter.new cfg)).current_transactions
        = countAdmits es₁ - countRemoves es₁
    ∧ countRemoves es₁ ≤ countAdmits es₁
    ∧ (execEvents es₁ (MempoolLimiter.new cfg)).current_declare_transactions
        = countDeclareAdmits es₁ - countDeclareRemoves es₁
    ∧ countDeclareRemoves es₁ ≤ countDeclareAdmits es₁
    ∧ (execEvents es₁ (MempoolLimiter.new cfg)).current_declare_transactions
        ≤ (execEvents es₁ (MempoolLimiter.new cfg)).current_transactions := by
  have hv1 : validFromB 0 es₁ = true := validFromB_append es₁ es₂ 0 hv
  have hlen1 : es₁.length < USIZE := by
    rw [List.length_append] at hlen
    omega
  obtain ⟨ht, hd⟩ := execEvents_counters es₁ 0 (MempoolLimiter.new cfg) hv1
    (by rw [Multiset.card_zero]; omega)
    (by rw [Multiset.card_zero]; rfl)
    (by rw [Multiset.filter_zero, Multiset.card_zero]; rfl)
  obtain ⟨hb1, hb2⟩ := card_poolAfter es₁ 0 hv1
  rw [Multiset.card_zero] at hb1
  rw [Multiset.filter_zero, Multiset.card_zero] at hb2
  have hfl : Multiset.card (Multiset.filter (fun c => c.check_declare_limit = true)
        (poolAfter 0 es₁))
      ≤ Multiset.card (poolAfter 0 es₁) :=
    Multiset.card_le_card (Multiset.filter_le _ _)
  refine ⟨by omega, by omega, by omega, by omega, by omega⟩

/-- Witness for C7: a single Declare admission from a fresh limiter. -/
theorem limiter_counters_track_valid_traces_witness :
    (execEvents [MempoolEvent.insert (TransactionCheckedLimits.limits_for .Declare 0)]
        (MempoolLimiter.new MempoolLimits.for_testing)).current_transactions
      = countAdmits [MempoolEvent.insert (TransactionCheckedLimits.limits_for .Declare 0)]
        - countRemoves [MempoolEvent.insert (TransactionCheckedLimits.limits_for .Declare 0)] :=
  (limiter_counters_track_valid_traces
    [MempoolEvent.insert (TransactionCheckedLimits.limits_for .Declare 0)] []
    MempoolLimits.for_testing rfl (by norm_num [USIZE])).1

/-- Claim C8: for every limiter state (with counters in `usize` range) and
every classification, `update_tx_limits` followed by `mark_removed` with the
same classification restores both counters to their previous values. -/
theorem update_then_mark_round_trip (s : MempoolLimiter) (c : TransactionCheckedLimits)
    (h1 : s.current_transactions < USIZE) (h2 : s.current_declare_transactions < USIZE) :
    ((s.update_tx_limits c).mark_removed c).current_transactions = s.current_transactions
    ∧ ((s.update_tx_limits c).mark_removed c).current_declare_transactions
        = s.current_declare_transactions := by
  constructor
  · rw [mark_removed_curr, update_tx_limits_curr]
    exact wrap_round_trip h1
  · by_cases hc : c.check_declare_limit = true
    · rw [mark_removed_decl, if_pos hc, update_tx_limits_decl, if_pos hc]
      exact wrap_round_trip h2
    · rw [mark_removed_decl, if_neg hc, update_tx_limits_decl, if_neg hc]

/-- Witness for C8: a concrete round trip from counters (3, 2). -/
theorem update_then_mark_round_trip_witness :
    (((MempoolLimiter.mk (MempoolLimits.mk 5 5 5) 3 2).update_tx_limits
        (TransactionCheckedLimits.mk true true true 0)).mark_removed
        (TransactionCheckedLimits.mk true true true 0)).current_transactions = 3
    ∧ (((MempoolLimiter.mk (MempoolLimits.mk 5 5 5) 3 2).update_tx_limits
        (TransactionCheckedLimits.mk true true true 0)).mark_removed
        (TransactionCheckedLimits.mk true true true 0)).current_declare_transactions = 2 :=
  update_then_mark_round_trip (MempoolLimiter.mk (MempoolLimits.mk 5 5 5) 3 2)
    (TransactionCheckedLimits.mk true true true 0) (by norm_num [USIZE]) (by norm_num [USIZE])

lemma usize_minus_one_not_le_zero : ¬(USIZE - 1 ≤ 0) := by norm_num [USIZE]

/-- Counterexample for C9: the `for_testing` configuration does not accept
every arrival timestamp — its `max_age` is 10000000 seconds, so a freshly
built limiter rejects an age-checked transaction that arrived at the epoch
when the clock reads 10000001 seconds, with an `Age` error. -/
theorem for_testing_age_rejection_counterexample :
    (MempoolLimiter.new MempoolLimits.for_testing).check_insert_limits 10000001
        (TransactionCheckedLimits.limits_for .InvokeFunction 0)
      = Except.error (MempoolLimitReached.Age 10000000) := rfl

/-- Amended C9: `for_testing` sets both transaction caps to `usize::MAX` but
`max_age` to 10000000 seconds (about 116 days, not hundreds of years); a
limiter freshly built from it accepts every classification that is not
age-checked, and every age-checked classification whose arrival is within
`max_age` of the clock reading, but rejects older age-checked arrivals. -/
theorem for_testing_limits_behavior (now : Nat) (t : TransactionType) (a : Nat) :
    MempoolLimits.for_testing.max_transactions = USIZE - 1
    ∧ MempoolLimits.for_testing.max_declare_transactions = USIZE - 1
    ∧ MempoolLimits.for_testing.max_age = 10000000
    ∧ ((TransactionCheckedLimits.limits_for t a).check_age = false →
        (MempoolLimiter.new MempoolLimits.for_testing).check_insert_limits now
          (TransactionCheckedLimits.limits_for t a) = Except.ok ())
    ∧ (now - 10000000 ≤ a →
        (MempoolLimiter.new MempoolLimits.for_testing).check_insert_limits now
          (TransactionCheckedLimits.limits_for t a) = Except.ok ()) := by
  refine ⟨rfl, rfl, rfl, ?_, ?_⟩
  · intro hca
    apply check_insert_limits_ok
    · rintro ⟨-, hle⟩
      exact usize_minus_one_not_le_zero hle
    · rintro ⟨-, hle⟩
      exact usize_minus_one_not_le_zero hle
    · exact tx_age_exceeded_eq_false_of_flag _ _ _ hca
  · intro h
    apply check_insert_limits_ok
    · rintro ⟨-, hle⟩
      exact usize_minus_one_not_le_zero hle
    · rintro ⟨-, hle⟩
      exact usize_minus_one_not_le_zero hle
    · apply tx_age_exceeded_eq_false_of_young
      rw [limits_for_arrived]
      show ¬(a < now - 10000000)
      omega

/-- Witness for the amended C9 theorem: a Declare arrival at the epoch is
accepted when the clock also reads the epoch. -/
theorem for_testing_limits_behavior_witness :
    (MempoolLimiter.new MempoolLimits.for_testing).check_insert_limits 0
        (TransactionCheckedLimits.limits_for .Declare 0) = Except.ok () :=
  (for_testing_limits_behavior 0 .Declare 0).2.2.2.2 (by norm_num)

/-- Claim C10: `update_tx_limits` has no upper-bound guard — at
`current_transactions = usize::MAX` a further admission wraps the counter to
zero modulo `2^64`; this is reachable in principle because an L1Handler
classification passes `check_insert_limits` even in that saturated state. -/
theorem update_tx_limits_wraps_at_usize_max (s : MempoolLimiter)
    (c : TransactionCheckedLimits) (now a : Nat)
    (h : s.current_transactions = USIZE - 1) :
    (s.update_tx_limits c).current_transactions = 0
    ∧ s.check_insert_limits now (TransactionCheckedLimits.limits_for .L1Handler a)
        = Except.ok () := by
  constructor
  · rw [update_tx_limits_curr, h]
    norm_num [USIZE]
  · apply check_insert_limits_ok
    · rintro ⟨hf, -⟩
      exact Bool.false_ne_true hf
    · rintro ⟨hf, -⟩
      exact Bool.false_ne_true hf
    · exact tx_age_exceeded_eq_false_of_flag _ _ _ rfl

/-- Witness for C10: a limiter whose total counter sits at `usize::MAX` wraps
to zero on the next admission and still accepts an L1Handler classification. -/
theorem update_tx_limits_wraps_at_usize_max_witness :
    ((MempoolLimiter.mk (MempoolLimits.mk 5 5 5) (USIZE - 1) 0).update_tx_limits
        (TransactionCheckedLimits.limits_for .L1Handler 0)).current_transactions = 0
    ∧ (MempoolLimiter.mk (MempoolLimits.mk 5 5 5) (USIZE - 1) 0).check_insert_limits 0
        (TransactionCheckedLimits.limits_for .L1Handler 0) = Except.ok () :=
  update_tx_limits_wraps_at_usize_max (MempoolLimiter.mk (MempoolLimits.mk 5 5 5) (USIZE - 1) 0)
    (TransactionCheckedLimits.limits_for .L1Handler 0) 0 0 rfl
